import Mathlib

/-! Games API: the request handlers of `src/index.js`.

The program is five Express handlers over one Mongoose model, `Game`.  Each
handler is a `try`/`catch` around one call of the storage driver, followed by
a mapping of the outcome to a status and a JSON body.

The embedding has two layers.

* The handlers themselves (`postGames`, `getGames`, `getGameById`,
  `putGameById`, `deleteGameById`) follow the source line by line.  The mapping
  from the driver's outcome to the response is kept as a function of its own
  (`postGamesRespond`, ...), defined on every outcome the driver can deliver.
* The storage driver (Mongoose over MongoDB) is not part of the repository.  It
  is modelled as pure functions on a store, a list of documents in insertion
  order, following the driver's documented behaviour for the schema of
  `src/index.js` lines 46-55: casting of body keys to the declared types,
  the `required` validator on `title` run by `save()`, defaults, the unique
  `_id` index, and `findByIdAndUpdate` called with `{ new: true }` only, hence
  without update validators.

Scope of the model.  A request body is seen through the schema: for every
schema path, whether the body carries the key and what the driver's cast makes
of the value.  Keys outside the schema are dropped by the driver (strict mode)
and are not represented; bodies that are not JSON objects, a JSON `null` under
`_id`, update-operator keys (`$set`, `$unset`, ...) and the version key `__v`
are not represented.  The storage is reachable: the only failures the modelled
driver raises are the ones it derives from the request and the store; the
response mappings are nevertheless defined for every storage error.
-/

namespace GamesApi

/-- The value of a MongoDB ObjectId (twelve bytes), as a natural number. -/
abbrev ObjectId := Nat

/-- A point in time, in milliseconds since the epoch. -/
abbrev Date := Int

/-- What the driver's cast to the schema type makes of one key of a JSON body:
the key is missing, it is JSON `null` (or a value the cast turns into `null`),
it casts to a value of the declared type, or the cast fails. -/
inductive Field (α : Type) where
  | absent
  | null
  | val (a : α)
  | invalid
  deriving DecidableEq, Repr

/-- The `_id` key of a JSON body, as the ObjectId cast sees it. -/
inductive IdField where
  | absent
  | val (oid : ObjectId)
  | invalid
  deriving DecidableEq, Repr

/-- One path of a stored document: missing, `null`, or a value. -/
inductive Slot (α : Type) where
  | absent
  | null
  | val (a : α)
  deriving DecidableEq, Repr

/-- The body of a request (`req.body`), seen through `gameSchema`.  A number
(`releaseYear`, declared `Number`) is a rational: a JSON number is a finite
decimal, and its rounding to a double is not represented. -/
structure ReqBody where
  id : IdField := .absent
  title : Field String := .absent
  genre : Field String := .absent
  platform : Field String := .absent
  releaseYear : Field Rat := .absent
  imageUrl : Field String := .absent
  description : Field String := .absent
  createdAt : Field Date := .absent
  deriving DecidableEq, Repr

/-- A stored document of the collection `games` (`gameSchema`, lines 46-55). -/
structure Game where
  id : ObjectId
  title : Slot String
  genre : Slot String
  platform : Slot String
  releaseYear : Slot Rat
  imageUrl : Slot String
  description : Slot String
  createdAt : Slot Date
  deriving DecidableEq, Repr

/-- The collection `games`: its documents in insertion order. -/
abbrev Store := List Game

/-- The path parameter `req.params.id`, as the ObjectId cast of the driver
sees it: a string that is no ObjectId, or the ObjectId it denotes. -/
inductive PathId where
  | malformed
  | wellFormed (oid : ObjectId)
  deriving DecidableEq, Repr

/-- What a request reads from outside the store: the clock (`Date.now`) and the
ObjectId the driver generates for a new document. -/
structure Env where
  now : Date
  newId : ObjectId
  deriving DecidableEq, Repr

/-- Why one path of a document fails validation. -/
inductive PathFault where
  | required
  | cast
  deriving DecidableEq, Repr

/-- The errors a call of the storage driver can throw. -/
inductive StorageError where
  | validation (failed : List (String × PathFault))
  | cast (path : String)
  | missingId
  | duplicateKey (oid : ObjectId)
  | immutableId
  | other (msg : String)
  deriving DecidableEq, Repr

/-- The text the driver reports for one failed path.  The entry of a required
path is the driver's; the entry of a failed cast stands for the driver's, which
also quotes the offending value and its type, neither of which a `Field`
carries. -/
def PathFault.describe (path : String) : PathFault → String
  | .required => path ++ ": Path `" ++ path ++ "` is required."
  | .cast => path ++ ": Cast failed at path \"" ++ path ++ "\""

/-- The `message` property of a thrown storage error.  The text of a cast
error stands for the driver's (`Cast to Number failed for value "abc" (type
string) at path "releaseYear"`), which quotes the offending value; the handlers
copy the text and never inspect it. -/
def StorageError.message : StorageError → String
  | .validation failed =>
      "Game validation failed: " ++
        ", ".intercalate (failed.map (fun f => f.2.describe f.1))
  | .cast path => "Cast failed at path \"" ++ path ++ "\" for model \"Game\""
  | .missingId => "document must have an _id before saving"
  | .duplicateKey oid => "E11000 duplicate key error collection: games index: _id_ dup key: " ++ toString oid
  | .immutableId => "Performing an update on the path '_id' would modify the immutable field '_id'"
  | .other msg => msg

/-- The JSON body of a response. -/
inductive ResBody where
  | text (t : String)
  | game (g : Game)
  | games (gs : List Game)
  | message (m : String)
  deriving DecidableEq, Repr

/-- A response: `res.status(..)` and the body sent. -/
structure Response where
  status : Nat
  body : ResBody
  deriving DecidableEq, Repr

/-! ## The storage driver -/

/-- The stored form of a cast body key. -/
def Field.toSlot {α : Type} : Field α → Slot α
  | .absent => .absent
  | .null => .null
  | .val a => .val a
  | .invalid => .absent

/-- The validation fault of an optional path: a failed cast. -/
def castFault {α : Type} (path : String) : Field α → List (String × PathFault)
  | .invalid => [(path, .cast)]
  | _ => []

/-- The validation fault of the `_id` path: a failed cast. -/
def idFault : IdField → List (String × PathFault)
  | .invalid => [("_id", .cast)]
  | _ => []

/-- The validation fault of a `required: true` string path (`title`, line 47):
the value is missing, `null` or the empty string, or its cast failed. -/
def requiredFault (path : String) : Field String → List (String × PathFault)
  | .absent => [(path, .required)]
  | .null => [(path, .required)]
  | .val s => if s = "" then [(path, .required)] else []
  | .invalid => [(path, .cast)]

/-- The validation `save()` runs on a document: the paths that fail.  Which
paths fail is the driver's; their order is the schema's here, whereas the
driver reports failed casts first, in the order of the body's keys, which a
`ReqBody` does not record. -/
def validate (doc : ReqBody) : List (String × PathFault) :=
  idFault doc.id ++ requiredFault "title" doc.title ++ castFault "genre" doc.genre ++
    castFault "platform" doc.platform ++ castFault "releaseYear" doc.releaseYear ++
    castFault "imageUrl" doc.imageUrl ++ castFault "description" doc.description ++
    castFault "createdAt" doc.createdAt

/-- The constructor `new Game(req.body)`: the body's schema paths, with the
defaults for the paths the body leaves undefined: a generated `_id`, and
`createdAt: Date.now` (line 54). -/
def Game.new (env : Env) (body : ReqBody) : ReqBody :=
  { body with
    id := match body.id with
      | .absent => .val env.newId
      | f => f
    createdAt := match body.createdAt with
      | .absent => .val env.now
      | f => f }

/-- The document written for a validated draft with identifier `oid`. -/
def Game.ofDraft (oid : ObjectId) (doc : ReqBody) : Game :=
  { id := oid
    title := doc.title.toSlot
    genre := doc.genre.toSlot
    platform := doc.platform.toSlot
    releaseYear := doc.releaseYear.toSlot
    imageUrl := doc.imageUrl.toSlot
    description := doc.description.toSlot
    createdAt := doc.createdAt.toSlot }

/-- Whether the store holds a document with this `_id`. -/
def Store.hasId (store : Store) (oid : ObjectId) : Bool :=
  store.any (fun g => g.id == oid)

/-- The call `newGame.save()`: validation first; then the insert, which the
unique index on `_id` rejects when the identifier is taken.  Returns the
outcome and the store the call leaves behind. -/
def Game.save (store : Store) (doc : ReqBody) : Except StorageError Game × Store :=
  match validate doc, doc.id with
  | [], .val oid =>
      if Store.hasId store oid then (.error (.duplicateKey oid), store)
      else (.ok (Game.ofDraft oid doc), store ++ [Game.ofDraft oid doc])
  | [], _ => (.error .missingId, store)
  | f :: fs, _ => (.error (.validation (f :: fs)), store)

/-- The call `Game.find()`: every document of the collection. -/
def Game.find (store : Store) : Except StorageError (List Game) × Store :=
  (.ok store, store)

/-- The query `findOne({ _id: oid })`: the first document with this `_id`. -/
def Store.lookup (store : Store) (oid : ObjectId) : Option Game :=
  List.find? (fun g => g.id == oid) store

/-- The call `Game.findById(id)`: a cast error for a malformed identifier,
otherwise the document found, or `null`. -/
def Game.findById (store : Store) (pid : PathId) :
    Except StorageError (Option Game) × Store :=
  match pid with
  | .malformed => (.error (.cast "_id"), store)
  | .wellFormed oid => (.ok (Store.lookup store oid), store)

/-- The first path of an update body whose cast fails, if any.  Whether a
body fails is the driver's; with several uncastable keys the driver names the
first in the order of the body's keys, here the first in schema order. -/
def castUpdate (body : ReqBody) : Option String :=
  if body.id = .invalid then some "_id"
  else if body.title = .invalid then some "title"
  else if body.genre = .invalid then some "genre"
  else if body.platform = .invalid then some "platform"
  else if body.releaseYear = .invalid then some "releaseYear"
  else if body.imageUrl = .invalid then some "imageUrl"
  else if body.description = .invalid then some "description"
  else if body.createdAt = .invalid then some "createdAt"
  else none

/-- The effect of `$set` with one cast body key on one path of a document. -/
def Field.assign {α : Type} : Field α → Slot α → Slot α
  | .absent, old => old
  | .null, _ => .null
  | .val a, _ => .val a
  | .invalid, old => old

/-- The effect of `$set` with the body's `_id` key on the identifier of a
document. -/
def IdField.assign : IdField → ObjectId → ObjectId
  | .val oid, _ => oid
  | .absent, old => old
  | .invalid, old => old

/-- The update `{ $set: body }` applied to a document: every key the body
carries is set, `_id` included. -/
def Game.applyUpdate (body : ReqBody) (g : Game) : Game :=
  { id := body.id.assign g.id
    title := body.title.assign g.title
    genre := body.genre.assign g.genre
    platform := body.platform.assign g.platform
    releaseYear := body.releaseYear.assign g.releaseYear
    imageUrl := body.imageUrl.assign g.imageUrl
    description := body.description.assign g.description
    createdAt := body.createdAt.assign g.createdAt }

/-- Whether an update body would give the document another `_id`. -/
def ReqBody.altersId (body : ReqBody) (oid : ObjectId) : Bool :=
  match body.id with
  | .val oid' => oid' != oid
  | _ => false

/-- The store with the first document of identifier `oid` replaced by `g`. -/
def Store.replaceFirst (oid : ObjectId) (g : Game) : Store → Store
  | [] => []
  | x :: xs => if x.id = oid then g :: xs else x :: Store.replaceFirst oid g xs

/-- The store without the first document of identifier `oid`. -/
def Store.removeFirst (oid : ObjectId) : Store → Store
  | [] => []
  | x :: xs => if x.id = oid then xs else x :: Store.removeFirst oid xs

/-- The call `Game.findByIdAndUpdate(id, body, { new: true })`: the identifier
and the body are cast (a failure throws before the store is read); the first
document with the identifier has the body's keys set, with no validator run,
and is returned as updated; `null` when no document has the identifier.  The
driver sends the body's `_id` along with the other keys, and the store refuses
an update that would give the matched document another `_id` (MongoDB error
66, ImmutableField); an `_id` equal to the document's is accepted. -/
def Game.findByIdAndUpdate (store : Store) (pid : PathId) (body : ReqBody) :
    Except StorageError (Option Game) × Store :=
  match pid with
  | .malformed => (.error (.cast "_id"), store)
  | .wellFormed oid =>
      match castUpdate body with
      | some path => (.error (.cast path), store)
      | none =>
          match Store.lookup store oid with
          | none => (.ok none, store)
          | some old =>
              if body.altersId oid then (.error .immutableId, store)
              else (.ok (some (Game.applyUpdate body old)),
                    Store.replaceFirst oid (Game.applyUpdate body old) store)

/-- The call `Game.findByIdAndDelete(id)`: a cast error for a malformed
identifier; otherwise the first document with the identifier is removed and
returned, or `null` when there is none. -/
def Game.findByIdAndDelete (store : Store) (pid : PathId) :
    Except StorageError (Option Game) × Store :=
  match pid with
  | .malformed => (.error (.cast "_id"), store)
  | .wellFormed oid =>
      match Store.lookup store oid with
      | none => (.ok none, store)
      | some old => (.ok (some old), Store.removeFirst oid store)

/-! ## The handlers (`src/index.js`, lines 63-136) -/

/-- The handler of `GET /` (lines 63-65). -/
def getRoot : Response :=
  ⟨200, .text "API de Jogos está online e funcionando!"⟩

/-- The response of `POST /api/games` for an outcome of `save()`
(lines 74 and 78). -/
def postGamesRespond : Except StorageError Game → Response
  | .ok newGame => ⟨201, .game newGame⟩
  | .error error => ⟨400, .message error.message⟩

/-- The handler of `POST /api/games` (lines 68-80). -/
def postGames (env : Env) (store : Store) (body : ReqBody) : Response × Store :=
  let newGame := Game.new env body
  let saved := Game.save store newGame
  (postGamesRespond saved.1, saved.2)

/-- The response of `GET /api/games` for an outcome of `find()`
(lines 86 and 89). -/
def getGamesRespond : Except StorageError (List Game) → Response
  | .ok games => ⟨200, .games games⟩
  | .error error => ⟨500, .message error.message⟩

/-- The handler of `GET /api/games` (lines 83-91). -/
def getGames (store : Store) : Response × Store :=
  let found := Game.find store
  (getGamesRespond found.1, found.2)

/-- The response of `GET /api/games/:id` for an outcome of `findById`
(lines 97-104). -/
def getGameByIdRespond : Except StorageError (Option Game) → Response
  | .ok none => ⟨404, .message "Jogo não encontrado"⟩
  | .ok (some game) => ⟨200, .game game⟩
  | .error _ => ⟨500, .message "ID inválido ou erro do servidor."⟩

/-- The handler of `GET /api/games/:id` (lines 94-106). -/
def getGameById (store : Store) (pid : PathId) : Response × Store :=
  let found := Game.findById store pid
  (getGameByIdRespond found.1, found.2)

/-- The response of `PUT /api/games/:id` for an outcome of
`findByIdAndUpdate` (lines 114-120). -/
def putGameByIdRespond : Except StorageError (Option Game) → Response
  | .ok none => ⟨404, .message "Jogo não encontrado para atualização"⟩
  | .ok (some updatedGame) => ⟨200, .game updatedGame⟩
  | .error error => ⟨400, .message error.message⟩

/-- The handler of `PUT /api/games/:id` (lines 109-122). -/
def putGameById (store : Store) (pid : PathId) (body : ReqBody) : Response × Store :=
  let updated := Game.findByIdAndUpdate store pid body
  (putGameByIdRespond updated.1, updated.2)

/-- The response of `DELETE /api/games/:id` for an outcome of
`findByIdAndDelete` (lines 128-134). -/
def deleteGameByIdRespond : Except StorageError (Option Game) → Response
  | .ok none => ⟨404, .message "Jogo não encontrado para exclusão"⟩
  | .ok (some _) => ⟨200, .message "Jogo excluído com sucesso!"⟩
  | .error _ => ⟨500, .message "ID inválido ou erro do servidor."⟩

/-- The handler of `DELETE /api/games/:id` (lines 125-136). -/
def deleteGameById (store : Store) (pid : PathId) : Response × Store :=
  let deleted := Game.findByIdAndDelete store pid
  (deleteGameByIdRespond deleted.1, deleted.2)

/-! ## Predicates on the store -/

/-- A document has a non-empty title. -/
def Game.hasTitle (g : Game) : Bool :=
  match g.title with
  | .val s => s != ""
  | _ => false

/-- No two documents of the store share an `_id`. -/
def Store.uniqueIds (store : Store) : Prop :=
  (store.map (fun g => g.id)).Nodup

instance (store : Store) : Decidable (Store.uniqueIds store) := by
  unfold Store.uniqueIds; infer_instance

/-- The invariant of the data model: every stored document has a non-empty
title and an `_id` that no other stored document has. -/
def Store.invariant (store : Store) : Prop :=
  (∀ g ∈ store, g.hasTitle = true) ∧ Store.uniqueIds store

instance (store : Store) : Decidable (Store.invariant store) := by
  unfold Store.invariant; infer_instance

/-! ## Sequences of requests -/

/-- A sequence of create requests served one after the other, each on the
store its predecessor left: the responses in order, and the final store. -/
def postGamesSeq : Store → List (Env × ReqBody) → List Response × Store
  | store, [] => ([], store)
  | store, req :: rest =>
      ((postGames req.1 store req.2).1 :: (postGamesSeq (postGames req.1 store req.2).2 rest).1,
        (postGamesSeq (postGames req.1 store req.2).2 rest).2)

end GamesApi

namespace GamesApi

/-! ## Lemmas on the store -/

theorem Store.lookup_eq_none_iff (store : Store) (oid : ObjectId) :
    Store.lookup store oid = none ↔ ∀ g ∈ store, g.id ≠ oid := by
  simp [Store.lookup, List.find?_eq_none]

theorem Store.lookup_some_mem {store : Store} {oid : ObjectId} {g : Game}
    (h : Store.lookup store oid = some g) : g ∈ store ∧ g.id = oid := by
  unfold Store.lookup at h
  refine ⟨List.mem_of_find?_eq_some h, ?_⟩
  simpa using List.find?_some h

theorem Store.hasId_eq_false_iff (store : Store) (oid : ObjectId) :
    Store.hasId store oid = false ↔ ∀ g ∈ store, g.id ≠ oid := by
  simp [Store.hasId]

theorem Store.lookup_append_fresh (store : Store) (g : Game)
    (h : Store.hasId store g.id = false) :
    Store.lookup (store ++ [g]) g.id = some g := by
  have hn : Store.lookup store g.id = none :=
    (Store.lookup_eq_none_iff store g.id).2 ((Store.hasId_eq_false_iff store g.id).1 h)
  unfold Store.lookup at hn ⊢
  simp [List.find?_append, hn]

theorem castFault_eq_nil_iff {α : Type} (path : String) (f : Field α) :
    castFault path f = [] ↔ f ≠ .invalid := by
  cases f <;> simp [castFault]

theorem idFault_eq_nil_iff (f : IdField) : idFault f = [] ↔ f ≠ .invalid := by
  cases f <;> simp [idFault]

theorem requiredFault_eq_nil_iff (path : String) (f : Field String) :
    requiredFault path f = [] ↔ ∃ s, f = .val s ∧ s ≠ "" := by
  cases f <;> simp [requiredFault]

theorem validate_eq_nil_iff (doc : ReqBody) :
    validate doc = [] ↔
      doc.id ≠ .invalid ∧ (∃ s, doc.title = .val s ∧ s ≠ "") ∧ doc.genre ≠ .invalid ∧
        doc.platform ≠ .invalid ∧ doc.releaseYear ≠ .invalid ∧ doc.imageUrl ≠ .invalid ∧
        doc.description ≠ .invalid ∧ doc.createdAt ≠ .invalid := by
  simp only [validate, List.append_eq_nil, castFault_eq_nil_iff, idFault_eq_nil_iff,
    requiredFault_eq_nil_iff, and_assoc]

theorem Store.removeFirst_sublist (oid : ObjectId) (store : Store) :
    List.Sublist (Store.removeFirst oid store) store := by
  induction store with
  | nil => exact List.Sublist.slnil
  | cons x xs ih =>
    unfold Store.removeFirst
    split
    · exact List.sublist_cons_self x xs
    · exact List.Sublist.cons₂ x ih

theorem Store.map_id_replaceFirst (oid : ObjectId) (g : Game) (hg : g.id = oid)
    (store : Store) :
    (Store.replaceFirst oid g store).map (fun x => x.id) = store.map (fun x => x.id) := by
  induction store with
  | nil => rfl
  | cons x xs ih =>
    unfold Store.replaceFirst
    split
    · next h => simp [hg, h]
    · simp [ih]

theorem Store.lookup_removeFirst (oid : ObjectId) (store : Store)
    (hu : Store.uniqueIds store) : Store.lookup (Store.removeFirst oid store) oid = none := by
  induction store with
  | nil => rfl
  | cons x xs ih =>
    have hx : x.id ∉ xs.map (fun g => g.id) ∧ Store.uniqueIds xs := by
      simpa [Store.uniqueIds] using hu
    unfold Store.removeFirst
    split
    · next h =>
      rw [Store.lookup_eq_none_iff]
      intro g hg hid
      exact hx.1 (by rw [h, ← hid]; exact List.mem_map_of_mem (fun g => g.id) hg)
    · next h =>
      have := ih hx.2
      unfold Store.lookup at this ⊢
      simp [List.find?_cons, h, this]

theorem Store.lookup_replaceFirst (oid : ObjectId) (g : Game) (hg : g.id = oid)
    (store : Store) (h : Store.hasId store oid = true) :
    Store.lookup (Store.replaceFirst oid g store) oid = some g := by
  induction store with
  | nil => simp [Store.hasId] at h
  | cons x xs ih =>
    unfold Store.replaceFirst
    split
    · simp [Store.lookup, List.find?_cons, hg]
    · next hx =>
      have hxs : Store.hasId xs oid = true := by
        simpa [Store.hasId, hx] using h
      have := ih hxs
      unfold Store.lookup at this ⊢
      simp [List.find?_cons, hx, this]

theorem Store.lookup_replaceFirst_of_ne (oid oid' : ObjectId) (g : Game) (hg : g.id = oid)
    (hne : oid' ≠ oid) (store : Store) :
    Store.lookup (Store.replaceFirst oid g store) oid' = Store.lookup store oid' := by
  induction store with
  | nil => rfl
  | cons x xs ih =>
    unfold Store.replaceFirst
    split
    · next hx =>
      have h1 : ¬ g.id = oid' := by rw [hg]; exact fun h => hne h.symm
      have h2 : ¬ x.id = oid' := by rw [hx]; exact fun h => hne h.symm
      simp [Store.lookup, List.find?_cons, h1, h2]
    · unfold Store.lookup at ih ⊢
      simp only [List.find?_cons, ih]

theorem Store.hasId_of_lookup {store : Store} {oid : ObjectId} {g : Game}
    (h : Store.lookup store oid = some g) : Store.hasId store oid = true := by
  have hm := Store.lookup_some_mem h
  simp only [Store.hasId, List.any_eq_true, beq_iff_eq]
  exact ⟨g, hm.1, hm.2⟩

theorem Store.mem_removeFirst_iff (oid : ObjectId) (store : Store)
    (hu : Store.uniqueIds store) (x : Game) :
    x ∈ Store.removeFirst oid store ↔ x ∈ store ∧ x.id ≠ oid := by
  induction store with
  | nil => simp [Store.removeFirst]
  | cons y ys ih =>
    have hy : y.id ∉ ys.map (fun g => g.id) ∧ Store.uniqueIds ys := by
      simpa [Store.uniqueIds] using hu
    unfold Store.removeFirst
    split
    · next h =>
      constructor
      · intro hx
        refine ⟨List.mem_cons_of_mem y hx, ?_⟩
        intro hxid
        exact hy.1 (by rw [h, ← hxid]; exact List.mem_map_of_mem (fun g => g.id) hx)
      · rintro ⟨hx, hxid⟩
        rcases List.mem_cons.1 hx with hx | hx
        · exact absurd (by rw [hx, h]) hxid
        · exact hx
    · next h =>
      rw [List.mem_cons, List.mem_cons, ih hy.2]
      constructor
      · rintro (hx | ⟨hx, hxid⟩)
        · exact ⟨Or.inl hx, by rw [hx]; exact h⟩
        · exact ⟨Or.inr hx, hxid⟩
      · rintro ⟨hx | hx, hxid⟩
        · exact Or.inl hx
        · exact Or.inr ⟨hx, hxid⟩

theorem Store.length_removeFirst (oid : ObjectId) (store : Store)
    (h : Store.hasId store oid = true) :
    (Store.removeFirst oid store).length + 1 = store.length := by
  induction store with
  | nil => simp [Store.hasId] at h
  | cons y ys ih =>
    unfold Store.removeFirst
    split
    · rfl
    · next hy =>
      have hys : Store.hasId ys oid = true := by
        simpa [Store.hasId, hy] using h
      simp [ih hys]

/-- The invariant holds for the empty store. -/
theorem Store.invariant_nil : Store.invariant [] := by
  simp [Store.invariant, Store.uniqueIds]

/-- The create handler preserves the invariant. -/
theorem postGames_invariant (env : Env) (store : Store) (body : ReqBody)
    (h : Store.invariant store) : Store.invariant (postGames env store body).2 := by
  unfold postGames Game.save
  simp only
  split
  · next oid hv hi =>
    split
    · exact h
    · next hfree =>
      have hfree' := (Store.hasId_eq_false_iff store oid).1 (by simpa using hfree)
      obtain ⟨s, hs, hne⟩ := ((validate_eq_nil_iff _).1 hv).2.1
      refine ⟨?_, ?_⟩
      · intro g hg
        rcases List.mem_append.1 hg with hg | hg
        · exact h.1 g hg
        · have : g = Game.ofDraft oid (Game.new env body) := by simpa using hg
          subst this
          simp [Game.hasTitle, Game.ofDraft, hs, Field.toSlot, hne]
      · have hu := h.2
        unfold Store.uniqueIds at hu ⊢
        rw [List.map_append, List.nodup_append]
        refine ⟨hu, by simp, ?_⟩
        intro a ha hb
        have hb' : a = oid := by simpa [Game.ofDraft] using hb
        obtain ⟨g, hg, hga⟩ := List.mem_map.1 ha
        exact hfree' g hg (by rw [hga, hb'])
  · exact h
  · exact h

/-- The list handler leaves the store as it is. -/
theorem getGames_store (store : Store) : (getGames store).2 = store := rfl

/-- The get-by-id handler leaves the store as it is. -/
theorem getGameById_store (store : Store) (pid : PathId) :
    (getGameById store pid).2 = store := by
  cases pid <;> rfl

/-- The delete handler preserves the invariant. -/
theorem deleteGameById_invariant (store : Store) (pid : PathId)
    (h : Store.invariant store) : Store.invariant (deleteGameById store pid).2 := by
  cases pid with
  | malformed => exact h
  | wellFormed oid =>
    unfold deleteGameById Game.findByIdAndDelete
    simp only
    split
    · exact h
    · have hs := Store.removeFirst_sublist oid store
      exact ⟨fun g hg => h.1 g (hs.subset hg), List.Nodup.sublist (hs.map _) h.2⟩

theorem Game.applyUpdate_id (body : ReqBody) (old : Game) (oid : ObjectId)
    (hid : old.id = oid) (h : body.altersId oid = false) :
    (Game.applyUpdate body old).id = oid := by
  unfold ReqBody.altersId at h
  cases hb : body.id with
  | absent => simp [Game.applyUpdate, IdField.assign, hb, hid]
  | invalid => simp [Game.applyUpdate, IdField.assign, hb, hid]
  | val oid' =>
    rw [hb] at h
    have : oid' = oid := by simpa using h
    simp [Game.applyUpdate, IdField.assign, hb, this]

/-- The update handler keeps identifiers unique. -/
theorem putGameById_uniqueIds (store : Store) (pid : PathId) (body : ReqBody)
    (h : Store.uniqueIds store) : Store.uniqueIds (putGameById store pid body).2 := by
  cases pid with
  | malformed => exact h
  | wellFormed oid =>
    unfold putGameById Game.findByIdAndUpdate
    simp only
    split
    · exact h
    · split
      · exact h
      · next old hold =>
        split
        · exact h
        · next halt =>
          unfold Store.uniqueIds
          rw [Store.map_id_replaceFirst oid _
            (Game.applyUpdate_id body old oid (Store.lookup_some_mem hold).2 (by simpa using halt))]
          exact h

theorem Store.map_replaceFirst {β : Type} (f : Game → β) (oid : ObjectId) (g old : Game)
    (store : Store) (hold : Store.lookup store oid = some old) (hf : f g = f old) :
    (Store.replaceFirst oid g store).map f = store.map f := by
  induction store with
  | nil => rfl
  | cons x xs ih =>
    unfold Store.replaceFirst
    split
    · next hx =>
      have : old = x := by
        simpa [Store.lookup, List.find?_cons, hx] using hold.symm
      subst this
      simp [hf]
    · next hx =>
      have hxs : Store.lookup xs oid = some old := by
        simpa [Store.lookup, List.find?_cons, hx] using hold
      simp [ih hxs]

/-- A create answered 201 appended the record it returns to the store. -/
theorem postGames_status_created (env : Env) (store : Store) (body : ReqBody)
    (h : (postGames env store body).1.status = 201) :
    ∃ g : Game, postGames env store body = (⟨201, .game g⟩, store ++ [g]) := by
  unfold postGames Game.save at h ⊢
  simp only at h ⊢
  split at h
  · next oid hv hi =>
    by_cases hdup : Store.hasId store oid = true
    · simp [hdup, postGamesRespond] at h
    · have hfree : Store.hasId store oid = false := by simpa using hdup
      simp only [hfree, Bool.false_eq_true, if_false, postGamesRespond]
      exact ⟨_, rfl⟩
  · simp [postGamesRespond] at h
  · simp [postGamesRespond] at h

/-- A sequence of creates that are all answered 201 appends the records it
returns, in order, to the store. -/
theorem postGamesSeq_created (reqs : List (Env × ReqBody)) (store : Store)
    (hok : ∀ r ∈ (postGamesSeq store reqs).1, r.status = 201) :
    ∃ created : List Game,
      (postGamesSeq store reqs).1 = created.map (fun g => ⟨201, .game g⟩) ∧
        (postGamesSeq store reqs).2 = store ++ created ∧ created.length = reqs.length := by
  induction reqs generalizing store with
  | nil => exact ⟨[], rfl, by simp [postGamesSeq], rfl⟩
  | cons req rest ih =>
    have h1 : (postGames req.1 store req.2).1.status = 201 :=
      hok _ (by simp [postGamesSeq])
    obtain ⟨g, hg⟩ := postGames_status_created req.1 store req.2 h1
    have hrest : ∀ r ∈ (postGamesSeq (store ++ [g]) rest).1, r.status = 201 := by
      intro r hr
      refine hok r ?_
      simp only [postGamesSeq, hg, List.mem_cons]
      exact Or.inr hr
    obtain ⟨created, hc1, hc2, hc3⟩ := ih (store ++ [g]) hrest
    refine ⟨g :: created, ?_, ?_, ?_⟩
    · simp only [postGamesSeq, hg, hc1, List.map_cons]
    · simp only [postGamesSeq, hg, hc2, List.append_assoc, List.singleton_append]
    · simp [hc3]

theorem castUpdate_createdAt {body : ReqBody} (h : castUpdate body = none) :
    body.createdAt ≠ .invalid := by
  intro hinv
  unfold castUpdate at h
  split_ifs at h

/-- The two ways an update ends: it is not answered 200, sends no record and
leaves the store as it is; or the identifier is well-formed, the body casts, a
document is found, the body does not alter its `_id`, and the document is
replaced by its update, which is sent back with status 200. -/
theorem putGameById_outcome (store : Store) (pid : PathId) (body : ReqBody) :
    ((putGameById store pid body).1.status ≠ 200 ∧
        (∀ g, (putGameById store pid body).1.body ≠ .game g) ∧
        (putGameById store pid body).2 = store) ∨
      ∃ oid old, pid = .wellFormed oid ∧ castUpdate body = none ∧
        Store.lookup store oid = some old ∧ body.altersId oid = false ∧
        putGameById store pid body =
          (⟨200, .game (Game.applyUpdate body old)⟩,
            Store.replaceFirst oid (Game.applyUpdate body old) store) := by
  cases pid with
  | malformed =>
    left
    simp [putGameById, Game.findByIdAndUpdate, putGameByIdRespond]
  | wellFormed oid =>
    cases hc : castUpdate body with
    | some path =>
      left
      simp [putGameById, Game.findByIdAndUpdate, hc, putGameByIdRespond]
    | none =>
      cases hl : Store.lookup store oid with
      | none =>
        left
        simp [putGameById, Game.findByIdAndUpdate, hc, hl, putGameByIdRespond]
      | some old =>
        cases ha : body.altersId oid with
        | true =>
          left
          simp [putGameById, Game.findByIdAndUpdate, hc, hl, ha, putGameByIdRespond]
        | false =>
          right
          refine ⟨oid, old, rfl, rfl, hl, ha, ?_⟩
          simp [putGameById, Game.findByIdAndUpdate, hc, hl, ha, putGameByIdRespond]

/-! ## The claims -/

/-- C1 (as amended): for every store and every request body whose title is a
non-empty text X, whose other schema keys are castable, which carries no `_id`
and no null `createdAt`, and for a generated identifier not yet in the store,
the create handler answers 201 with the stored record: title X, the generated
identifier, a creation timestamp (the clock's when the body gives none); the
store afterwards is the old store followed by that record. -/
theorem postGames_created (env : Env) (store : Store) (body : ReqBody) (X : String)
    (htitle : body.title = .val X) (hX : X ≠ "")
    (hid : body.id = .absent)
    (hgenre : body.genre ≠ .invalid) (hplatform : body.platform ≠ .invalid)
    (hyear : body.releaseYear ≠ .invalid) (himage : body.imageUrl ≠ .invalid)
    (hdescr : body.description ≠ .invalid)
    (hdate : body.createdAt ≠ .invalid ∧ body.createdAt ≠ .null)
    (hfresh : Store.hasId store env.newId = false) :
    ∃ g : Game, postGames env store body = (⟨201, .game g⟩, store ++ [g]) ∧
      g.title = .val X ∧ g.id = env.newId ∧
      (∃ d, g.createdAt = .val d ∧ (body.createdAt = .absent → d = env.now)) ∧
      g ∈ (postGames env store body).2 := by
  have hv : validate (Game.new env body) = [] := by
    rw [validate_eq_nil_iff]
    obtain ⟨i, t, g, p, r, u, d, c⟩ := body
    simp only at htitle hid hgenre hplatform hyear himage hdescr hdate
    subst htitle hid
    refine ⟨by simp [Game.new], ⟨X, by simp [Game.new], hX⟩, hgenre, hplatform, hyear, himage,
      hdescr, ?_⟩
    cases c <;> simp_all [Game.new]
  have hi : (Game.new env body).id = .val env.newId := by simp [Game.new, hid]
  refine ⟨Game.ofDraft env.newId (Game.new env body), ?_, ?_, rfl, ?_, ?_⟩
  · simp [postGames, Game.save, hv, hi, hfresh, postGamesRespond]
  · simp [Game.ofDraft, Game.new, htitle, Field.toSlot]
  · obtain ⟨hd1, hd2⟩ := hdate
    cases hc : body.createdAt <;> simp_all [Game.ofDraft, Game.new, Field.toSlot]
  · simp [postGames, Game.save, hv, hi, hfresh]

/-- Witness of C1 (as amended): the body `{title: "X"}` on the empty store. -/
theorem postGames_created_witness :
    ∃ g : Game, postGames ⟨1700000000000, 7⟩ [] { title := .val "X" } =
        (⟨201, .game g⟩, [] ++ [g]) ∧
      g.title = .val "X" ∧ g.id = 7 ∧
      (∃ d, g.createdAt = .val d ∧
        (({ title := .val "X" } : ReqBody).createdAt = .absent → d = 1700000000000)) ∧
      g ∈ (postGames ⟨1700000000000, 7⟩ [] { title := .val "X" }).2 :=
  postGames_created ⟨1700000000000, 7⟩ [] { title := .val "X" } "X" rfl (by decide) rfl
    (by decide) (by decide) (by decide) (by decide) (by decide) (by decide) rfl

/-- C1 (counterexample): the body `{title: "X", releaseYear: "abc"}` has a
non-empty text title, yet the create handler answers 400 and stores nothing. -/
theorem postGames_created_counterexample :
    ({ title := .val "X", releaseYear := .invalid } : ReqBody).title = .val "X" ∧
      "X" ≠ "" ∧
      (postGames ⟨1700000000000, 7⟩ [] { title := .val "X", releaseYear := .invalid }).1.status
        = 400 ∧
      (postGames ⟨1700000000000, 7⟩ [] { title := .val "X", releaseYear := .invalid }).2 = [] := by
  refine ⟨rfl, by decide, ?_, ?_⟩ <;>
    simp [postGames, Game.save, Game.new, validate, idFault, requiredFault, castFault,
      postGamesRespond]

/-- C2: for every store and every request body without a title (the key is
missing or null) or with an empty title, the create handler answers 400 with a
message body carrying the validation message, which names the required path
`title`, and the store is the same as before. -/
theorem postGames_missing_title (env : Env) (store : Store) (body : ReqBody)
    (h : body.title = .absent ∨ body.title = .null ∨ body.title = .val "") :
    ∃ failed : List (String × PathFault), ("title", PathFault.required) ∈ failed ∧
      postGames env store body =
        (⟨400, .message (StorageError.validation failed).message⟩, store) := by
  have hmem : ("title", PathFault.required) ∈ validate (Game.new env body) := by
    have : requiredFault "title" body.title = [("title", PathFault.required)] := by
      rcases h with h | h | h <;> simp [h, requiredFault]
    simp [validate, Game.new, this]
  refine ⟨validate (Game.new env body), hmem, ?_⟩
  cases hv : validate (Game.new env body) with
  | nil => rw [hv] at hmem; cases hmem
  | cons f fs => simp [postGames, Game.save, hv, postGamesRespond]

/-- Witness of C2: the empty body on the empty store. -/
theorem postGames_missing_title_witness :
    ∃ failed : List (String × PathFault), ("title", PathFault.required) ∈ failed ∧
      postGames ⟨1700000000000, 7⟩ [] {} =
        (⟨400, .message (StorageError.validation failed).message⟩, []) :=
  postGames_missing_title ⟨1700000000000, 7⟩ [] {} (Or.inl rfl)

/-- C3 (the code at the failing input): on a store that satisfies the
invariant, an update whose body sets `title` to the empty text is answered 200
and leaves a stored record with an empty title: the invariant no longer
holds. -/
theorem putGameById_empty_title_breaks_invariant :
    Store.invariant [⟨1, .val "Doom", .absent, .absent, .absent, .absent, .absent, .val 0⟩] ∧
      putGameById [⟨1, .val "Doom", .absent, .absent, .absent, .absent, .absent, .val 0⟩]
          (.wellFormed 1) { title := .val "" } =
        (⟨200, .game ⟨1, .val "", .absent, .absent, .absent, .absent, .absent, .val 0⟩⟩,
          [⟨1, .val "", .absent, .absent, .absent, .absent, .absent, .val 0⟩]) ∧
      ¬ Store.invariant [⟨1, .val "", .absent, .absent, .absent, .absent, .absent, .val 0⟩] := by
  refine ⟨by decide, by decide, by decide⟩

/-- C4: for every store and every path identifier the get-by-id handler
answers 200 with a stored record of that identifier when one exists, 404 with
a message when the identifier is well-formed and no record has it, and 500
with a message when the identifier is malformed; each status occurs in
exactly its case, and the store is left as it is. -/
theorem getGameById_cases (store : Store) (pid : PathId) :
    (∀ oid, pid = .wellFormed oid → (∃ g ∈ store, g.id = oid) →
        ∃ g ∈ store, g.id = oid ∧ (getGameById store pid).1 = ⟨200, .game g⟩) ∧
      (∀ oid, pid = .wellFormed oid → (∀ g ∈ store, g.id ≠ oid) →
        (getGameById store pid).1 = ⟨404, .message "Jogo não encontrado"⟩) ∧
      (pid = .malformed →
        (getGameById store pid).1 = ⟨500, .message "ID inválido ou erro do servidor."⟩) ∧
      ((getGameById store pid).1.status = 200 ↔
        ∃ oid, pid = .wellFormed oid ∧ ∃ g ∈ store, g.id = oid) ∧
      ((getGameById store pid).1.status = 404 ↔
        ∃ oid, pid = .wellFormed oid ∧ ∀ g ∈ store, g.id ≠ oid) ∧
      ((getGameById store pid).1.status = 500 ↔ pid = .malformed) ∧
      (getGameById store pid).2 = store := by
  have hst : (getGameById store pid).2 = store := getGameById_store store pid
  cases pid with
  | malformed => simp [getGameById, Game.findById, getGameByIdRespond]
  | wellFormed oid =>
    have hresp : (getGameById store (.wellFormed oid)).1 =
        getGameByIdRespond (.ok (Store.lookup store oid)) := rfl
    cases hl : Store.lookup store oid with
    | none =>
      have hn := (Store.lookup_eq_none_iff store oid).1 hl
      have hn' : ¬ ∃ g ∈ store, g.id = oid := fun ⟨g, hg, hid⟩ => hn g hg hid
      rw [hl] at hresp
      refine ⟨?_, ?_, ?_, ?_, ?_, ?_, hst⟩
      · intro o ho hex
        cases ho
        exact absurd hex hn'
      · intro o _ _
        rw [hresp]; rfl
      · intro hm; cases hm
      · rw [hresp]
        constructor
        · intro h; simp [getGameByIdRespond] at h
        · rintro ⟨o, ho, hex⟩
          cases ho
          exact absurd hex hn'
      · rw [hresp]
        constructor
        · intro _; exact ⟨oid, rfl, hn⟩
        · intro _; rfl
      · rw [hresp]
        constructor
        · intro h; simp [getGameByIdRespond] at h
        · intro hm; cases hm
    | some g =>
      have hm := Store.lookup_some_mem hl
      have hex : ∃ g ∈ store, g.id = oid := ⟨g, hm.1, hm.2⟩
      have hnall : ¬ ∀ g ∈ store, g.id ≠ oid := fun hall => hall g hm.1 hm.2
      rw [hl] at hresp
      refine ⟨?_, ?_, ?_, ?_, ?_, ?_, hst⟩
      · intro o ho _
        cases ho
        exact ⟨g, hm.1, hm.2, hresp⟩
      · intro o ho hall
        cases ho
        exact absurd hall hnall
      · intro hm; cases hm
      · rw [hresp]
        constructor
        · intro _; exact ⟨oid, rfl, hex⟩
        · intro _; rfl
      · rw [hresp]
        constructor
        · intro h; simp [getGameByIdRespond] at h
        · rintro ⟨o, ho, hall⟩
          cases ho
          exact absurd hall hnall
      · rw [hresp]
        constructor
        · intro h; simp [getGameByIdRespond] at h
        · intro hm; cases hm

/-- C5: whenever the create handler answers 201, its body is a record, and a
get-by-id request with that record's identifier on the store the create left
behind answers 200 with the very same record. -/
theorem getGameById_after_postGames (env : Env) (store : Store) (body : ReqBody)
    (h : (postGames env store body).1.status = 201) :
    ∃ g : Game, (postGames env store body).1 = ⟨201, .game g⟩ ∧
      getGameById (postGames env store body).2 (.wellFormed g.id) =
        (⟨200, .game g⟩, (postGames env store body).2) := by
  unfold postGames Game.save at h ⊢
  simp only at h ⊢
  split at h
  · next oid hv hi =>
    by_cases hdup : Store.hasId store oid = true
    · simp [hdup, postGamesRespond] at h
    · have hfree : Store.hasId store oid = false := by simpa using hdup
      simp only [hfree, Bool.false_eq_true, if_false, postGamesRespond]
      refine ⟨_, rfl, ?_⟩
      have hl := Store.lookup_append_fresh store (Game.ofDraft oid (Game.new env body)) hfree
      simp only [getGameById, Game.findById]
      rw [show (Game.ofDraft oid (Game.new env body)).id = oid from rfl] at hl ⊢
      rw [hl]
      rfl
  · simp [postGamesRespond] at h
  · simp [postGamesRespond] at h

/-- Witness of C5: the body `{title: "X"}` created on the empty store. -/
theorem getGameById_after_postGames_witness :
    ∃ g : Game, (postGames ⟨1700000000000, 7⟩ [] { title := .val "X" }).1 = ⟨201, .game g⟩ ∧
      getGameById (postGames ⟨1700000000000, 7⟩ [] { title := .val "X" }).2
          (.wellFormed g.id) =
        (⟨200, .game g⟩, (postGames ⟨1700000000000, 7⟩ [] { title := .val "X" }).2) :=
  getGameById_after_postGames ⟨1700000000000, 7⟩ [] { title := .val "X" } (by decide)

/-- C6: for every store and every identifier under which a record is stored,
an update whose body carries only a genre text g answers 200 with that record
with genre g and every other field, title included, as before; the store then
holds this record under the identifier, and every other identifier finds what
it found before. -/
theorem putGameById_genre_only (store : Store) (oid : ObjectId) (old : Game) (g : String)
    (hold : Store.lookup store oid = some old) :
    (putGameById store (.wellFormed oid) { genre := .val g }).1 =
        ⟨200, .game { old with genre := .val g }⟩ ∧
      ({ old with genre := .val g } : Game).title = old.title ∧
      Store.lookup (putGameById store (.wellFormed oid) { genre := .val g }).2 oid =
        some { old with genre := .val g } ∧
      (∀ oid', oid' ≠ oid →
        Store.lookup (putGameById store (.wellFormed oid) { genre := .val g }).2 oid' =
          Store.lookup store oid') ∧
      (putGameById store (.wellFormed oid) { genre := .val g }).2.length = store.length := by
  have hid : old.id = oid := (Store.lookup_some_mem hold).2
  have happ : Game.applyUpdate { genre := .val g } old = { old with genre := .val g } := by
    simp [Game.applyUpdate, Field.assign, IdField.assign]
  have hput : putGameById store (.wellFormed oid) { genre := .val g } =
      (⟨200, .game { old with genre := .val g }⟩,
        Store.replaceFirst oid { old with genre := .val g } store) := by
    simp [putGameById, Game.findByIdAndUpdate, castUpdate, hold, ReqBody.altersId,
      putGameByIdRespond, happ]
  rw [hput]
  refine ⟨rfl, rfl, ?_, ?_, ?_⟩
  · exact Store.lookup_replaceFirst oid { old with genre := .val g } hid store
      (Store.hasId_of_lookup hold)
  · intro oid' hne
    exact Store.lookup_replaceFirst_of_ne oid oid' { old with genre := .val g } hid hne store
  · have := congrArg List.length (Store.map_id_replaceFirst oid { old with genre := .val g } hid store)
    simpa using this

/-- Witness of C6: the genre of the only stored record is set to "FPS". -/
theorem putGameById_genre_only_witness :
    (putGameById [⟨1, .val "Doom", .absent, .absent, .absent, .absent, .absent, .val 0⟩]
        (.wellFormed 1) { genre := .val "FPS" }).1 =
        ⟨200, .game { (⟨1, .val "Doom", .absent, .absent, .absent, .absent, .absent, .val 0⟩ :
          Game) with genre := .val "FPS" }⟩ ∧
      ({ (⟨1, .val "Doom", .absent, .absent, .absent, .absent, .absent, .val 0⟩ : Game) with
          genre := .val "FPS" } : Game).title =
        (⟨1, .val "Doom", .absent, .absent, .absent, .absent, .absent, .val 0⟩ : Game).title ∧
      Store.lookup (putGameById
          [⟨1, .val "Doom", .absent, .absent, .absent, .absent, .absent, .val 0⟩]
          (.wellFormed 1) { genre := .val "FPS" }).2 1 =
        some { (⟨1, .val "Doom", .absent, .absent, .absent, .absent, .absent, .val 0⟩ : Game) with
          genre := .val "FPS" } ∧
      (∀ oid', oid' ≠ 1 →
        Store.lookup (putGameById
            [⟨1, .val "Doom", .absent, .absent, .absent, .absent, .absent, .val 0⟩]
            (.wellFormed 1) { genre := .val "FPS" }).2 oid' =
          Store.lookup [⟨1, .val "Doom", .absent, .absent, .absent, .absent, .absent, .val 0⟩]
            oid') ∧
      (putGameById [⟨1, .val "Doom", .absent, .absent, .absent, .absent, .absent, .val 0⟩]
        (.wellFormed 1) { genre := .val "FPS" }).2.length =
        [(⟨1, .val "Doom", .absent, .absent, .absent, .absent, .absent, .val 0⟩ : Game)].length :=
  putGameById_genre_only [⟨1, .val "Doom", .absent, .absent, .absent, .absent, .absent, .val 0⟩]
    1 ⟨1, .val "Doom", .absent, .absent, .absent, .absent, .absent, .val 0⟩ "FPS" (by decide)

/-- C7 (the code at the failing input): an update of an existing record whose
body clears the required title, by the empty text or by null, is answered 200,
not 400, and the stored record has lost its title. -/
theorem putGameById_clear_title_accepted :
    putGameById [⟨1, .val "Doom", .val "FPS", .absent, .absent, .absent, .absent, .val 0⟩]
        (.wellFormed 1) { title := .val "" } =
      (⟨200, .game ⟨1, .val "", .val "FPS", .absent, .absent, .absent, .absent, .val 0⟩⟩,
        [⟨1, .val "", .val "FPS", .absent, .absent, .absent, .absent, .val 0⟩]) ∧
    putGameById [⟨1, .val "Doom", .val "FPS", .absent, .absent, .absent, .absent, .val 0⟩]
        (.wellFormed 1) { title := .null } =
      (⟨200, .game ⟨1, .null, .val "FPS", .absent, .absent, .absent, .absent, .val 0⟩⟩,
        [⟨1, .null, .val "FPS", .absent, .absent, .absent, .absent, .val 0⟩]) ∧
    requiredFault "title" (.val "") = [("title", PathFault.required)] ∧
    requiredFault "title" .null = [("title", PathFault.required)] := by
  refine ⟨by decide, by decide, by decide, by decide⟩

/-- C8 (as amended): for every store and every well-formed identifier that no
stored record has, the update handler answers 404 with a message for every
request body whose keys all cast to their schema types, and 400 with the cast
error's message for a body with a key that does not cast; in both cases the
store is left as it is. -/
theorem putGameById_absent (store : Store) (oid : ObjectId) (body : ReqBody)
    (hno : ∀ g ∈ store, g.id ≠ oid) :
    (putGameById store (.wellFormed oid) body).2 = store ∧
      (castUpdate body = none →
        (putGameById store (.wellFormed oid) body).1 =
          ⟨404, .message "Jogo não encontrado para atualização"⟩) ∧
      (∀ path, castUpdate body = some path →
        (putGameById store (.wellFormed oid) body).1 =
          ⟨400, .message (StorageError.cast path).message⟩) := by
  have hl := (Store.lookup_eq_none_iff store oid).2 hno
  cases hc : castUpdate body with
  | none => simp [putGameById, Game.findByIdAndUpdate, hc, hl, putGameByIdRespond]
  | some path => simp [putGameById, Game.findByIdAndUpdate, hc, putGameByIdRespond]

/-- Witness of C8 (as amended): a genre update for identifier 2 on a store
whose only record has identifier 1. -/
theorem putGameById_absent_witness :
    (putGameById [⟨1, .val "Doom", .absent, .absent, .absent, .absent, .absent, .val 0⟩]
        (.wellFormed 2) { genre := .val "FPS" }).2 =
        [⟨1, .val "Doom", .absent, .absent, .absent, .absent, .absent, .val 0⟩] ∧
      (castUpdate { genre := .val "FPS" } = none →
        (putGameById [⟨1, .val "Doom", .absent, .absent, .absent, .absent, .absent, .val 0⟩]
          (.wellFormed 2) { genre := .val "FPS" }).1 =
          ⟨404, .message "Jogo não encontrado para atualização"⟩) ∧
      (∀ path, castUpdate { genre := .val "FPS" } = some path →
        (putGameById [⟨1, .val "Doom", .absent, .absent, .absent, .absent, .absent, .val 0⟩]
          (.wellFormed 2) { genre := .val "FPS" }).1 =
          ⟨400, .message (StorageError.cast path).message⟩) :=
  putGameById_absent [⟨1, .val "Doom", .absent, .absent, .absent, .absent, .absent, .val 0⟩]
    2 { genre := .val "FPS" } (by decide)

/-- C8 (counterexample): on the empty store, an update for the well-formed
identifier 1 with the body `{releaseYear: "abc"}` is answered 400, not 404. -/
theorem putGameById_absent_counterexample :
    (∀ g ∈ ([] : Store), g.id ≠ 1) ∧
      (putGameById [] (.wellFormed 1) { releaseYear := .invalid }).1.status = 400 ∧
      (putGameById [] (.wellFormed 1) { releaseYear := .invalid }).1.status ≠ 404 := by
  refine ⟨by decide, by decide, by decide⟩

/-- C9: for every store with unique identifiers and every stored record, the
delete handler called with the record's identifier answers 200 with the
confirmation message, the store afterwards holds exactly the other records
(one record fewer), and a get-by-id with the same identifier then answers
404. -/
theorem deleteGameById_existing (store : Store) (g : Game)
    (hu : Store.uniqueIds store) (hg : g ∈ store) :
    (deleteGameById store (.wellFormed g.id)).1 =
        ⟨200, .message "Jogo excluído com sucesso!"⟩ ∧
      (∀ x, x ∈ (deleteGameById store (.wellFormed g.id)).2 ↔ x ∈ store ∧ x ≠ g) ∧
      (deleteGameById store (.wellFormed g.id)).2.length + 1 = store.length ∧
      (getGameById (deleteGameById store (.wellFormed g.id)).2 (.wellFormed g.id)).1 =
        ⟨404, .message "Jogo não encontrado"⟩ := by
  have hhas : Store.hasId store g.id = true := by
    simp only [Store.hasId, List.any_eq_true, beq_iff_eq]
    exact ⟨g, hg, rfl⟩
  obtain ⟨old, hold⟩ : ∃ old, Store.lookup store g.id = some old := by
    cases hl : Store.lookup store g.id with
    | none => exact absurd rfl ((Store.lookup_eq_none_iff store g.id).1 hl g hg)
    | some old => exact ⟨old, rfl⟩
  have hdel : deleteGameById store (.wellFormed g.id) =
      (⟨200, .message "Jogo excluído com sucesso!"⟩, Store.removeFirst g.id store) := by
    simp [deleteGameById, Game.findByIdAndDelete, hold, deleteGameByIdRespond]
  have hinj : ∀ x ∈ store, x.id = g.id → x = g := by
    intro x hx hxid
    exact List.inj_on_of_nodup_map hu hx hg hxid
  rw [hdel]
  refine ⟨rfl, ?_, Store.length_removeFirst g.id store hhas, ?_⟩
  · intro x
    rw [Store.mem_removeFirst_iff g.id store hu x]
    constructor
    · rintro ⟨hx, hxid⟩
      exact ⟨hx, fun h => hxid (by rw [h])⟩
    · rintro ⟨hx, hne⟩
      exact ⟨hx, fun h => hne (hinj x hx h)⟩
  · simp [getGameById, Game.findById, Store.lookup_removeFirst g.id store hu,
      getGameByIdRespond]

/-- Witness of C9: the first of two stored records is deleted. -/
theorem deleteGameById_existing_witness :
    (deleteGameById
        [⟨1, .val "Doom", .absent, .absent, .absent, .absent, .absent, .val 0⟩,
         ⟨2, .val "Quake", .absent, .absent, .absent, .absent, .absent, .val 5⟩]
        (.wellFormed 1)).1 = ⟨200, .message "Jogo excluído com sucesso!"⟩ ∧
      (∀ x, x ∈ (deleteGameById
          [⟨1, .val "Doom", .absent, .absent, .absent, .absent, .absent, .val 0⟩,
           ⟨2, .val "Quake", .absent, .absent, .absent, .absent, .absent, .val 5⟩]
          (.wellFormed 1)).2 ↔
        x ∈ ([⟨1, .val "Doom", .absent, .absent, .absent, .absent, .absent, .val 0⟩,
           ⟨2, .val "Quake", .absent, .absent, .absent, .absent, .absent, .val 5⟩] : Store) ∧
          x ≠ ⟨1, .val "Doom", .absent, .absent, .absent, .absent, .absent, .val 0⟩) ∧
      (deleteGameById
          [⟨1, .val "Doom", .absent, .absent, .absent, .absent, .absent, .val 0⟩,
           ⟨2, .val "Quake", .absent, .absent, .absent, .absent, .absent, .val 5⟩]
          (.wellFormed 1)).2.length + 1 =
        ([⟨1, .val "Doom", .absent, .absent, .absent, .absent, .absent, .val 0⟩,
          ⟨2, .val "Quake", .absent, .absent, .absent, .absent, .absent, .val 5⟩] :
            Store).length ∧
      (getGameById (deleteGameById
          [⟨1, .val "Doom", .absent, .absent, .absent, .absent, .absent, .val 0⟩,
           ⟨2, .val "Quake", .absent, .absent, .absent, .absent, .absent, .val 5⟩]
          (.wellFormed 1)).2 (.wellFormed 1)).1 = ⟨404, .message "Jogo não encontrado"⟩ :=
  deleteGameById_existing
    [⟨1, .val "Doom", .absent, .absent, .absent, .absent, .absent, .val 0⟩,
     ⟨2, .val "Quake", .absent, .absent, .absent, .absent, .absent, .val 5⟩]
    ⟨1, .val "Doom", .absent, .absent, .absent, .absent, .absent, .val 0⟩
    (by decide) (by decide)

/-- C10 (as amended): for every store and every identifier that no stored
record has, the delete handler leaves the store as it is; it answers 404 with
a message when the identifier is well-formed and 500 with a message when it is
malformed. -/
theorem deleteGameById_absent (store : Store) (pid : PathId)
    (hno : ∀ g ∈ store, pid ≠ .wellFormed g.id) :
    (deleteGameById store pid).2 = store ∧
      (∀ oid, pid = .wellFormed oid →
        (deleteGameById store pid).1 = ⟨404, .message "Jogo não encontrado para exclusão"⟩) ∧
      (pid = .malformed →
        (deleteGameById store pid).1 = ⟨500, .message "ID inválido ou erro do servidor."⟩) := by
  cases pid with
  | malformed => simp [deleteGameById, Game.findByIdAndDelete, deleteGameByIdRespond]
  | wellFormed oid =>
    have hl : Store.lookup store oid = none :=
      (Store.lookup_eq_none_iff store oid).2 (fun g hg h => hno g hg (by rw [h]))
    simp [deleteGameById, Game.findByIdAndDelete, hl, deleteGameByIdRespond]

/-- Witness of C10 (as amended): identifier 2 on a store whose only record has
identifier 1. -/
theorem deleteGameById_absent_witness :
    (deleteGameById [⟨1, .val "Doom", .absent, .absent, .absent, .absent, .absent, .val 0⟩]
        (.wellFormed 2)).2 =
        [⟨1, .val "Doom", .absent, .absent, .absent, .absent, .absent, .val 0⟩] ∧
      (∀ oid, PathId.wellFormed 2 = .wellFormed oid →
        (deleteGameById [⟨1, .val "Doom", .absent, .absent, .absent, .absent, .absent, .val 0⟩]
          (.wellFormed 2)).1 = ⟨404, .message "Jogo não encontrado para exclusão"⟩) ∧
      (PathId.wellFormed 2 = .malformed →
        (deleteGameById [⟨1, .val "Doom", .absent, .absent, .absent, .absent, .absent, .val 0⟩]
          (.wellFormed 2)).1 = ⟨500, .message "ID inválido ou erro do servidor."⟩) :=
  deleteGameById_absent [⟨1, .val "Doom", .absent, .absent, .absent, .absent, .absent, .val 0⟩]
    (.wellFormed 2) (by decide)

/-- C10 (counterexample): a malformed identifier matches no stored record, and
the delete handler answers 500, not 404. -/
theorem deleteGameById_absent_counterexample :
    (∀ g ∈ ([⟨1, .val "Doom", .absent, .absent, .absent, .absent, .absent, .val 0⟩] : Store),
        PathId.malformed ≠ .wellFormed g.id) ∧
      (deleteGameById [⟨1, .val "Doom", .absent, .absent, .absent, .absent, .absent, .val 0⟩]
        .malformed).1.status = 500 ∧
      (deleteGameById [⟨1, .val "Doom", .absent, .absent, .absent, .absent, .absent, .val 0⟩]
        .malformed).1.status ≠ 404 := by
  refine ⟨by decide, by decide, by decide⟩

/-- C11: for every store and every sequence of N create requests that are all
answered 201, a following list request answers 200 with a sequence of length
at least N that contains the record of every one of the N create
responses. -/
theorem getGames_after_postGamesSeq (store : Store) (reqs : List (Env × ReqBody))
    (hok : ∀ r ∈ (postGamesSeq store reqs).1, r.status = 201) :
    ∃ gs : List Game,
      (getGames (postGamesSeq store reqs).2).1 = ⟨200, .games gs⟩ ∧
        reqs.length ≤ gs.length ∧
        (postGamesSeq store reqs).1.length = reqs.length ∧
        ∀ r ∈ (postGamesSeq store reqs).1, ∃ g : Game, r = ⟨201, .game g⟩ ∧ g ∈ gs := by
  obtain ⟨created, hc1, hc2, hc3⟩ := postGamesSeq_created reqs store hok
  refine ⟨store ++ created, ?_, ?_, ?_, ?_⟩
  · rw [hc2]; rfl
  · rw [List.length_append, hc3]; exact Nat.le_add_left _ _
  · rw [hc1, List.length_map, hc3]
  · intro r hr
    rw [hc1] at hr
    obtain ⟨g, hg, hgr⟩ := List.mem_map.1 hr
    exact ⟨g, hgr.symm, List.mem_append_right store hg⟩

/-- Witness of C11: two creates on a store that already holds one record. -/
theorem getGames_after_postGamesSeq_witness :
    ∃ gs : List Game,
      (getGames (postGamesSeq
          [⟨1, .val "Doom", .absent, .absent, .absent, .absent, .absent, .val 0⟩]
          [(⟨10, 7⟩, { title := .val "X" }), (⟨20, 8⟩, { title := .val "Y" })]).2).1 =
        ⟨200, .games gs⟩ ∧
        [((⟨10, 7⟩ : Env), ({ title := .val "X" } : ReqBody)),
          (⟨20, 8⟩, { title := .val "Y" })].length ≤ gs.length ∧
        (postGamesSeq
          [⟨1, .val "Doom", .absent, .absent, .absent, .absent, .absent, .val 0⟩]
          [(⟨10, 7⟩, { title := .val "X" }), (⟨20, 8⟩, { title := .val "Y" })]).1.length =
          [((⟨10, 7⟩ : Env), ({ title := .val "X" } : ReqBody)),
            (⟨20, 8⟩, { title := .val "Y" })].length ∧
        ∀ r ∈ (postGamesSeq
            [⟨1, .val "Doom", .absent, .absent, .absent, .absent, .absent, .val 0⟩]
            [(⟨10, 7⟩, { title := .val "X" }), (⟨20, 8⟩, { title := .val "Y" })]).1,
          ∃ g : Game, r = ⟨201, .game g⟩ ∧ g ∈ gs :=
  getGames_after_postGamesSeq
    [⟨1, .val "Doom", .absent, .absent, .absent, .absent, .absent, .val 0⟩]
    [(⟨10, 7⟩, { title := .val "X" }), (⟨20, 8⟩, { title := .val "Y" })] (by decide)

/-- C12 (as amended): the identifier of a stored record is immutable: for
every store, path identifier and update body, every record of the store has
after the update the identifier it had before, a record sent back has the
requested identifier, and a body that carries another identifier is not
answered 200.  An update that is not answered 200 leaves the store as it is.
The creation timestamp of every record is unchanged as well, unless the update
is answered 200 and the body carries a `createdAt` that casts, to a date or to
null: then the record sent back, which is the one stored under the identifier,
has the body's value. -/
theorem putGameById_id_createdAt (store : Store) (pid : PathId) (body : ReqBody) :
    (putGameById store pid body).2.map (fun g => g.id) = store.map (fun g => g.id) ∧
      (∀ g, (putGameById store pid body).1.body = .game g → pid = .wellFormed g.id) ∧
      (∀ oid oid', pid = .wellFormed oid → body.id = .val oid' → oid' ≠ oid →
        (putGameById store pid body).1.status ≠ 200) ∧
      ((putGameById store pid body).1.status ≠ 200 →
        (putGameById store pid body).2 = store) ∧
      ((putGameById store pid body).1.status ≠ 200 ∨ body.createdAt = .absent ∨
          body.createdAt = .invalid →
        (putGameById store pid body).2.map (fun g => (g.id, g.createdAt)) =
          store.map (fun g => (g.id, g.createdAt))) ∧
      (∀ g, (putGameById store pid body).1 = ⟨200, .game g⟩ →
        (∀ d, body.createdAt = .val d → g.createdAt = .val d) ∧
          (body.createdAt = .null → g.createdAt = .null) ∧
          Store.lookup (putGameById store pid body).2 g.id = some g) := by
  rcases putGameById_outcome store pid body with ⟨hst, hbody, hstore⟩ | ⟨oid, old, hpid, hc, hl, ha, hput⟩
  · refine ⟨by rw [hstore], ?_, fun _ _ _ _ _ => hst, fun _ => hstore, fun _ => by rw [hstore], ?_⟩
    · intro g hg
      exact absurd hg (hbody g)
    · intro g hg
      exact absurd (by rw [hg]) hst
  · have hold : old.id = oid := (Store.lookup_some_mem hl).2
    have hnew : (Game.applyUpdate body old).id = oid := Game.applyUpdate_id body old oid hold ha
    rw [hput]
    refine ⟨?_, ?_, ?_, ?_, ?_, ?_⟩
    · exact Store.map_replaceFirst (fun g => g.id) oid _ old store hl (hnew.trans hold.symm)
    · intro g hg
      have hg' : Game.applyUpdate body old = g := by simpa using hg
      rw [hpid, ← hg', hnew]
    · intro o o' ho hb hne
      rw [hpid] at ho
      cases ho
      have : body.altersId oid = true := by
        simp [ReqBody.altersId, hb, hne]
      rw [ha] at this
      cases this
    · intro h
      exact absurd rfl h
    · rintro (h | h | h)
      · exact absurd rfl h
      · refine Store.map_replaceFirst (fun g => (g.id, g.createdAt)) oid _ old store hl ?_
        have hca : (Game.applyUpdate body old).createdAt = old.createdAt := by
          simp [Game.applyUpdate, h, Field.assign]
        simp only [hnew, hold, hca]
      · exact absurd h (castUpdate_createdAt hc)
    · intro g hg
      have hg' : Game.applyUpdate body old = g := by
        simpa using congrArg Response.body hg
      have hgid : g.id = oid := by rw [← hg']; exact hnew
      refine ⟨?_, ?_, ?_⟩
      · intro d hd
        rw [← hg']
        simp [Game.applyUpdate, hd, Field.assign]
      · intro hn
        rw [← hg']
        simp [Game.applyUpdate, hn, Field.assign]
      · rw [hgid, ← hg']
        exact Store.lookup_replaceFirst oid _ hnew store (Store.hasId_of_lookup hl)

/-- C12 (counterexample): an update whose body carries `createdAt` is answered
200 and replaces the creation timestamp of the stored record. -/
theorem putGameById_id_createdAt_counterexample :
    putGameById [⟨1, .val "Doom", .absent, .absent, .absent, .absent, .absent, .val 0⟩]
        (.wellFormed 1) { createdAt := .val 5 } =
      (⟨200, .game ⟨1, .val "Doom", .absent, .absent, .absent, .absent, .absent, .val 5⟩⟩,
        [⟨1, .val "Doom", .absent, .absent, .absent, .absent, .absent, .val 5⟩]) ∧
    (⟨1, .val "Doom", .absent, .absent, .absent, .absent, .absent, .val 5⟩ : Game).createdAt ≠
      (⟨1, .val "Doom", .absent, .absent, .absent, .absent, .absent, .val 0⟩ : Game).createdAt := by
  refine ⟨by decide, by decide⟩

/-- An update body that carries another `_id`: applied as `$set` it would
give the record identifier 2; the store refuses it, the handler answers 400
and the store is as before. -/
theorem putGameById_other_id_refused :
    (Game.applyUpdate { id := .val 2 }
        ⟨1, .val "Doom", .absent, .absent, .absent, .absent, .absent, .val 0⟩).id = 2 ∧
      (putGameById [⟨1, .val "Doom", .absent, .absent, .absent, .absent, .absent, .val 0⟩]
        (.wellFormed 1) { id := .val 2 }).1.status = 400 ∧
      (putGameById [⟨1, .val "Doom", .absent, .absent, .absent, .absent, .absent, .val 0⟩]
        (.wellFormed 1) { id := .val 2 }).2 =
        [⟨1, .val "Doom", .absent, .absent, .absent, .absent, .absent, .val 0⟩] := by
  refine ⟨by decide, by decide, by decide⟩

/-- C13: for every outcome of the storage call, and so for every request and
store, the status each handler sends lies in the set of its endpoint: create
in 201, 400; list in 200, 500; get-by-id in 200, 404, 500; update in
200, 404, 400; delete in 200, 404, 500.  A storage error, the cast error of a
malformed identifier included, gives 500 on get-by-id and delete and 400 on
update. -/
theorem handler_status_sets :
    (∀ o, (postGamesRespond o).status = 201 ∨ (postGamesRespond o).status = 400) ∧
      (∀ o, (getGamesRespond o).status = 200 ∨ (getGamesRespond o).status = 500) ∧
      (∀ o, (getGameByIdRespond o).status = 200 ∨ (getGameByIdRespond o).status = 404 ∨
        (getGameByIdRespond o).status = 500) ∧
      (∀ o, (putGameByIdRespond o).status = 200 ∨ (putGameByIdRespond o).status = 404 ∨
        (putGameByIdRespond o).status = 400) ∧
      (∀ o, (deleteGameByIdRespond o).status = 200 ∨ (deleteGameByIdRespond o).status = 404 ∨
        (deleteGameByIdRespond o).status = 500) ∧
      (∀ env store body, (postGames env store body).1.status = 201 ∨
        (postGames env store body).1.status = 400) ∧
      (∀ store, (getGames store).1.status = 200 ∨ (getGames store).1.status = 500) ∧
      (∀ store pid, (getGameById store pid).1.status = 200 ∨
        (getGameById store pid).1.status = 404 ∨ (getGameById store pid).1.status = 500) ∧
      (∀ store pid body, (putGameById store pid body).1.status = 200 ∨
        (putGameById store pid body).1.status = 404 ∨
        (putGameById store pid body).1.status = 400) ∧
      (∀ store pid, (deleteGameById store pid).1.status = 200 ∨
        (deleteGameById store pid).1.status = 404 ∨ (deleteGameById store pid).1.status = 500) ∧
      (∀ e, (getGameByIdRespond (.error e)).status = 500 ∧
        (deleteGameByIdRespond (.error e)).status = 500 ∧
        (putGameByIdRespond (.error e)).status = 400) ∧
      (∀ store body, (getGameById store .malformed).1.status = 500 ∧
        (deleteGameById store .malformed).1.status = 500 ∧
        (putGameById store .malformed body).1.status = 400) := by
  have h1 : ∀ o, (postGamesRespond o).status = 201 ∨ (postGamesRespond o).status = 400 := by
    intro o; cases o <;> simp [postGamesRespond]
  have h2 : ∀ o, (getGamesRespond o).status = 200 ∨ (getGamesRespond o).status = 500 := by
    intro o; cases o <;> simp [getGamesRespond]
  have h3 : ∀ o, (getGameByIdRespond o).status = 200 ∨ (getGameByIdRespond o).status = 404 ∨
      (getGameByIdRespond o).status = 500 := by
    intro o; rcases o with e | (_ | g) <;> simp [getGameByIdRespond]
  have h4 : ∀ o, (putGameByIdRespond o).status = 200 ∨ (putGameByIdRespond o).status = 404 ∨
      (putGameByIdRespond o).status = 400 := by
    intro o; rcases o with e | (_ | g) <;> simp [putGameByIdRespond]
  have h5 : ∀ o, (deleteGameByIdRespond o).status = 200 ∨
      (deleteGameByIdRespond o).status = 404 ∨ (deleteGameByIdRespond o).status = 500 := by
    intro o; rcases o with e | (_ | g) <;> simp [deleteGameByIdRespond]
  refine ⟨h1, h2, h3, h4, h5, fun _ _ _ => h1 _, fun _ => h2 _, fun _ _ => h3 _,
    fun _ _ _ => h4 _, fun _ _ => h5 _, fun _ => ⟨rfl, rfl, rfl⟩, fun _ _ => ⟨rfl, rfl, rfl⟩⟩

/-- C14 (as amended): every 500 response of the get-by-id handler and of the
delete handler carries one fixed message, whatever the storage error; the 500
response of the list handler carries the storage error's own message. -/
theorem server_error_messages :
    (∀ o, (getGameByIdRespond o).status = 500 →
        getGameByIdRespond o = ⟨500, .message "ID inválido ou erro do servidor."⟩) ∧
      (∀ o, (deleteGameByIdRespond o).status = 500 →
        deleteGameByIdRespond o = ⟨500, .message "ID inválido ou erro do servidor."⟩) ∧
      (∀ e e', getGameByIdRespond (.error e) = getGameByIdRespond (.error e') ∧
        deleteGameByIdRespond (.error e) = deleteGameByIdRespond (.error e')) ∧
      (∀ o, (getGamesRespond o).status = 500 →
        ∃ e, o = .error e ∧ getGamesRespond o = ⟨500, .message e.message⟩) := by
  refine ⟨?_, ?_, fun _ _ => ⟨rfl, rfl⟩, ?_⟩
  · intro o h
    rcases o with e | (_ | g)
    · rfl
    · simp [getGameByIdRespond] at h
    · simp [getGameByIdRespond] at h
  · intro o h
    rcases o with e | (_ | g)
    · rfl
    · simp [deleteGameByIdRespond] at h
    · simp [deleteGameByIdRespond] at h
  · intro o h
    rcases o with e | gs
    · exact ⟨e, rfl, rfl⟩
    · simp [getGamesRespond] at h

/-- C14 (counterexample): two storage errors with different messages give the
list handler two different 500 bodies. -/
theorem server_error_messages_counterexample :
    (getGamesRespond (.error (.other "connection refused"))).status = 500 ∧
      (getGamesRespond (.error (.other "operation timed out"))).status = 500 ∧
      (getGamesRespond (.error (.other "connection refused"))).body =
        .message "connection refused" ∧
      (getGamesRespond (.error (.other "operation timed out"))).body =
        .message "operation timed out" ∧
      (getGamesRespond (.error (.other "connection refused"))).body ≠
        (getGamesRespond (.error (.other "operation timed out"))).body := by
  refine ⟨rfl, rfl, rfl, rfl, by decide⟩

end GamesApi
